import Mathlib

/-!
Shallow embedding of the FastAPI backend in `app/main.py` of the
`data_analysis_v2` repository, together with proofs about its claims.

Modelling conventions:
- Each HTTP handler becomes a pure function returning
  `Except HTTPError <success payload>`; `raise HTTPException(status, detail)`
  becomes `Except.error ⟨status, detail⟩`.
- The pandas dataframe is modelled by its schema (ordered column names with
  dtypes); cell values never influence the control flow relevant to the
  claims, so they are omitted.
- Effects whose outcome the handler merely branches on are passed in as
  explicit arguments: the parse outcome of an uploaded file, the HTTP outcome
  of the completion call, the outcome of `exec` on model-supplied plotting
  code, filesystem existence and per-image embedding outcomes for the PDF
  report.  Rendering steps the code performs unconditionally (savefig,
  write_image, dashboard file write) are modelled as deterministic successes.
- Fresh uuid path components are abstracted away; artifacts are identified by
  what was drawn, not by the random file name.
- Python string helpers used by the source (`split`, `strip`, `lower`,
  substring test, `replace`) are re-implemented structurally over `List Char`
  so that every definition kernel-reduces.
-/

namespace DAW

/-- `raise HTTPException(status_code, detail)` from fastapi. -/
structure HTTPError where
  status : Nat
  detail : String
deriving DecidableEq, Repr

/-- pandas dtypes, restricted to the distinctions the handlers test via
`select_dtypes`. -/
inductive Dtype where
  | int64
  | float64
  | object
  | category
  | boolean
  | datetime
deriving DecidableEq, Repr

/-- `select_dtypes(include=[\x27number\x27])` keeps exactly these dtypes. -/
def isNumericDtype : Dtype → Bool
  | .int64 => true
  | .float64 => true
  | _ => false

/-- `select_dtypes(include=[\x27object\x27, \x27category\x27])` keeps exactly these. -/
def isCategoricalDtype : Dtype → Bool
  | .object => true
  | .category => true
  | _ => false

/-- A dataframe, reduced to its ordered schema (name, dtype per column). -/
structure DataFrame where
  cols : List (String × Dtype)
deriving DecidableEq, Repr

/-- `df.columns.tolist()`. -/
def dfColumns (df : DataFrame) : List String :=
  df.cols.map (·.1)

/-- Names of the columns kept by `df.select_dtypes(include=[\x27number\x27])`. -/
def numericCols (df : DataFrame) : List String :=
  (df.cols.filter (fun c => isNumericDtype c.2)).map (·.1)

/-- Names of the columns kept by
`df.select_dtypes(include=[\x27object\x27, \x27category\x27])`. -/
def categoricalCols (df : DataFrame) : List String :=
  (df.cols.filter (fun c => isCategoricalDtype c.2)).map (·.1)

/-- One value of the global `data_store` dict (main.py lines 81-86);
the `df` field keeps the parsed dataframe, `columns` its column list. -/
structure StoredData where
  filename : String
  path : String
  columns : List String
  df : DataFrame
deriving DecidableEq, Repr

/-- The mutable module state touched by `upload_file`: the global
`data_store` dict (as an association list) and the set of files written
under `UPLOAD_DIR`. -/
structure AppState where
  data_store : List (String × StoredData)
  uploads : List String
deriving DecidableEq, Repr

/-- Dictionary lookup `data_store[file_id]` / `file_id in data_store`. -/
def lookupStore : List (String × StoredData) → String → Option StoredData
  | [], _ => none
  | (k, v) :: rest, fid => if k == fid then some v else lookupStore rest fid

/-! ### Python string helpers, re-implemented structurally -/

/-- Python `str.split(sep)` for a single-character separator, on the
character list.  `"" .split(".") = [""]` and separators at the ends yield
empty pieces, as in Python. -/
def splitOnChar (sep : Char) : List Char → List (List Char)
  | [] => [[]]
  | c :: rest =>
    match splitOnChar sep rest with
    | h :: t => if c == sep then [] :: h :: t else (c :: h) :: t
    | [] => [[c]]

/-- Python `str.lower()` (ASCII case fold, which is all the source compares). -/
def lowerStr (s : String) : String :=
  ⟨s.data.map Char.toLower⟩

/-- Python `str.strip()` with default whitespace. -/
def pyStrip (s : String) : String :=
  ⟨((s.data.dropWhile Char.isWhitespace).reverse.dropWhile Char.isWhitespace).reverse⟩

/-- Does the pattern occur at the head of the list? -/
def leadsWith : List Char → List Char → Bool
  | [], _ => true
  | _ :: _, [] => false
  | a :: as, b :: bs => a == b && leadsWith as bs

/-- Does the pattern occur anywhere in the list? -/
def occursInL : List Char → List Char → Bool
  | pat, [] => pat.isEmpty
  | pat, c :: rest => leadsWith pat (c :: rest) || occursInL pat rest

/-- Python `needle in s` substring test. -/
def mentions (needle s : String) : Bool :=
  occursInL needle.data s.data

/-- Fuel-driven core of Python `str.replace` (the fuel is the input length,
which always suffices because each step consumes at least one character). -/
def replaceAux (pat rep : List Char) : Nat → List Char → List Char
  | _, [] => []
  | 0, l => l
  | fuel + 1, c :: rest =>
    if leadsWith pat (c :: rest) then
      rep ++ replaceAux pat rep fuel ((c :: rest).drop pat.length)
    else
      c :: replaceAux pat rep fuel rest

/-- Python `s.replace(pat, rep)` for a non-empty pattern. -/
def pyReplace (s pat rep : String) : String :=
  ⟨replaceAux pat.data rep.data s.data.length s.data⟩

/-! ### POST /api/upload (main.py lines 55-92) -/

/-- `file.filename.split(".")[-1].lower()` (main.py line 61). -/
def extOf (filename : String) : String :=
  lowerStr ⟨(splitOnChar '.' filename.data).getLastD []⟩

/-- The accepted extensions (main.py line 62). -/
def allowedExts : List String := ["csv", "xlsx", "xls"]

/-- The JSON body returned on a successful upload (main.py lines 88-89);
the 5-row preview is omitted because row values are not modelled. -/
structure UploadOk where
  file_id : String
  filename : String
  columns : List String
deriving DecidableEq, Repr

/-- `upload_file` (main.py lines 55-92).  `fid` stands for the fresh
`uuid.uuid4()`; `parsed` is the outcome of `pd.read_csv` / `pd.read_excel`
on the saved file (`Except.error msg` meaning the parse raised with message
`msg`).  Returns the new state and the response. -/
def upload_file (st : AppState) (filename fid : String)
    (parsed : Except String DataFrame) :
    AppState × Except HTTPError UploadOk :=
  if filename = "" then
    (st, .error ⟨400, "No file provided"⟩)
  else
    let ext := extOf filename
    if ext ∈ allowedExts then
      -- the raw upload is written to UPLOAD_DIR before parsing (lines 69-71)
      let st1 : AppState := { st with uploads := st.uploads ++ [fid ++ "." ++ ext] }
      match parsed with
      | .ok df =>
        ({ st1 with
            data_store := st1.data_store ++
              [(fid, ⟨filename, "temp/uploads/" ++ fid ++ "." ++ ext, dfColumns df, df⟩)] },
         .ok ⟨fid, filename, dfColumns df⟩)
      | .error msg =>
        (st1, .error ⟨500, "Error processing file: " ++ msg⟩)
    else
      (st, .error ⟨400, "Only CSV and Excel files are supported"⟩)

/-! ### Completion client (main.py lines 132-154 / 379-401, 194-198 / 832-836) -/

/-- One item of the model reply's `visualizations` array. -/
structure VizItem where
  title : Option String := none
  description : Option String := none
  code : Option String := none
deriving DecidableEq, Repr

/-- The JSON object parsed from the model's message content.  Every key is
optional (the handlers access each via `.get`/membership tests); values the
claims depend on are modelled as strings. -/
structure Reply where
  analysis : Option String := none
  visualization_code : Option String := none
  insights : Option String := none
  data_quality : Option String := none
  statistics : Option String := none
  correlations : Option String := none
  patterns : Option String := none
  preprocessing : Option String := none
  visualizations : Option (List VizItem) := none
deriving DecidableEq, Repr

/-- Outcome of the `httpx` POST to the completion API.
`response st body content`: the request completed with HTTP status `st` and
body text `body`; `content` is the outcome of decoding the model message
content as JSON (`Except.error msg` = the decode raised with message `msg`).
`netError msg`: the request itself raised (network failure, timeout, ...). -/
inductive UpstreamOutcome where
  | response (status : Nat) (body : String) (content : Except String Reply)
  | netError (msg : String)
deriving Repr

/-- `response.is_success`, the condition under which
`response.raise_for_status()` does not raise. -/
def is2xx (st : Nat) : Bool :=
  decide (200 ≤ st ∧ st < 300)

/-- The shared try/except discipline of `analyze_data` and
`auto_analyze_data` around the completion call: `httpx.HTTPStatusError`
becomes an HTTPException carrying the upstream status and body
(lines 194-196 / 832-834), any other exception becomes a 500
(lines 197-198 / 835-836). -/
def handleCompletion : UpstreamOutcome → Except HTTPError Reply
  | .response st body content =>
    if is2xx st then
      match content with
      | .ok r => .ok r
      | .error msg => .error ⟨500, "Error analyzing data: " ++ msg⟩
    else
      .error ⟨st, "Error from OpenRouter API: " ++ body⟩
  | .netError msg => .error ⟨500, "Error analyzing data: " ++ msg⟩

/-! ### Generative visualization rendering (main.py lines 403-613) -/

/-- Outcome of `exec(viz_code, viz_namespace)`: success (recording whether
the namespace gained a `fig` object) or an exception with message. -/
inductive ExecRes where
  | ok (hasFig : Bool)
  | err (msg : String)
deriving DecidableEq, Repr

/-- A rendered image artifact, identified by what was drawn (the uuid file
name and the title/description bookkeeping are abstracted away). -/
inductive Artifact where
  /-- matplotlib path: code mentioning `plt`, saved via `plt.savefig`
  (lines 468-476). -/
  | mpl (code : String)
  /-- plotly path: `fig.write_image` (lines 479-486). -/
  | plotly (code : String)
  /-- per-slot last-resort histogram of the first numeric column
  (lines 489-497). -/
  | lastResortHist (col : String)
  /-- per-slot last-resort bar chart of the top-10 values of `df.columns[0]`
  (lines 498-504). -/
  | lastResortCatBar (col : String)
  /-- image rendering the exception text of a failed slot (lines 515-533). -/
  | errorImage (msg : String)
  /-- the 2x2 "Data Overview" default panel (lines 540-590): whether the
  numeric-histogram and scatter subpanels are drawn, and the categorical
  column whose top-5 bar chart fills the third subpanel, if any. -/
  | overview (hasNumericHist : Bool) (hasScatter : Bool) (catBar : Option String)
  /-- the default correlation heatmap (lines 592-610). -/
  | corrHeatmap
deriving DecidableEq, Repr

/-- Python truthiness applied to `viz_item.get("code")` (line 413:
`if "code" in viz_item and viz_item["code"]`). -/
def truthyCode : Option String → Option String
  | some s => if s = "" then none else some s
  | none => none

/-- `if not viz_code or len(viz_code.strip()) < 10` (line 428). -/
def needsDefault : Option String → Bool
  | none => true
  | some s => decide ((pyStrip s).length < 10)

/-- The canned default histogram code substituted for slot 0
(lines 432-440), with the first numeric column interpolated. -/
def defaultHistCode (col : String) : String :=
  "\nimport seaborn as sns\nplt.figure(figsize=(10, 6))\nsns.histplot(df[\x27"
    ++ col ++ "\x27], kde=True)\nplt.title(\x27Distribution of " ++ col
    ++ "\x27)\nplt.xlabel(\x27" ++ col ++ "\x27)\nplt.ylabel(\x27Count\x27)\nplt.tight_layout()\n"

/-- The canned default correlation-heatmap code substituted for slot 1
(lines 447-455). -/
def defaultHeatmapCode : String :=
  "\nimport seaborn as sns\nplt.figure(figsize=(12, 10))\ncorr = df.select_dtypes(include=[\x27number\x27]).corr()\nmask = np.triu(np.ones_like(corr, dtype=bool))\nsns.heatmap(corr, mask=mask, annot=True, cmap=\x27coolwarm\x27, fmt=\x27.2f\x27, linewidths=0.5)\nplt.title(\x27Correlation Heatmap\x27)\nplt.tight_layout()\n"

/-- The default-substitution step (lines 428-457): slots 0 and 1 get a
canned default when the supplied code is missing/short and the dataset
shape permits; otherwise the code is left as supplied.  (The title and
description overwrites on `viz_item` are bookkeeping not modelled.) -/
def substituteDefault (df : DataFrame) (i : Nat) (vc : Option String) : Option String :=
  if needsDefault vc then
    if i = 0 then
      match numericCols df with
      | c :: _ => some (defaultHistCode c)
      | [] => vc
    else if i = 1 then
      if (numericCols df).length > 1 then some defaultHeatmapCode else vc
    else vc
  else vc

/-- The artifacts appended by one iteration of the visualization loop
(lines 407-535), given the artifacts `acc` accumulated so far (the loop
consults the global `visualization_paths` in its last-resort branch,
line 489).  `execO` gives the outcome of `exec` per code string.
Note `"plt" in viz_namespace` (line 468) is always true because the
namespace is preloaded with `plt` (line 419), so that branch reduces to the
code-text test. -/
def processSlot (df : DataFrame) (execO : String → ExecRes)
    (acc : List Artifact) (i : Nat) (item : VizItem) : List Artifact :=
  match substituteDefault df i (truthyCode item.code) with
  | none => []
  | some code =>
    match execO code with
    | .err msg => [.errorImage msg]
    | .ok hasFig =>
      if mentions "plt" code then
        [.mpl code]
      else if mentions "px" code || mentions "go." code || hasFig then
        if hasFig then [.plotly code] else []
      else if acc.isEmpty then
        match numericCols df with
        | c :: _ => [.lastResortHist c]
        | [] =>
          match dfColumns df with
          | c0 :: _ => [.lastResortCatBar c0]
          -- df.columns[0] on a zero-column frame raises IndexError, which
          -- the per-slot except turns into an error image (lines 515-533)
          | [] => [.errorImage "index 0 is out of bounds for axis 0 with size 0"]
      else []

/-- The visualization loop (lines 406-535). -/
def runSlots (df : DataFrame) (execO : String → ExecRes) :
    Nat → List Artifact → List VizItem → List Artifact
  | _, acc, [] => acc
  | i, acc, item :: rest =>
    runSlots df execO (i + 1) (acc ++ processSlot df execO acc i item) rest

/-- Artifacts produced from the model reply's `visualizations` array, or
none when the key is absent / not a list (line 406). -/
def replyArtifacts (df : DataFrame) (execO : String → ExecRes) (r : Reply) :
    List Artifact :=
  match r.visualizations with
  | some items => runSlots df execO 0 [] items
  | none => []

/-- The end-of-loop default block (lines 537-613): when no artifact exists,
add the 2x2 Data Overview panel and, given at least two numeric columns,
a correlation heatmap. -/
def defaultBlock (df : DataFrame) : List Artifact :=
  Artifact.overview (decide ((numericCols df).length > 0))
      (decide ((numericCols df).length > 1))
      (categoricalCols df).head? ::
    (if (numericCols df).length > 1 then [Artifact.corrHeatmap] else [])

/-- The full visualization pipeline of `auto_analyze_data`
(lines 403-613). -/
def autoVizPaths (df : DataFrame) (execO : String → ExecRes) (r : Reply) :
    List Artifact :=
  if (replyArtifacts df execO r).isEmpty then defaultBlock df
  else replyArtifacts df execO r

/-! ### Dashboard assembly (main.py lines 615-815) -/

/-- `format_content` (lines 615-622), string branch: newline to `<br>`.
(The dict/list branch pretty-prints via json.dumps; values are modelled as
strings, so only this branch is embedded.) -/
def format_content (s : String) : String :=
  pyReplace s "\n" "<br>"

/-- The semantic content of the generated dashboard HTML: one rendered
string per navigational section (with its `.get` placeholder default) and
the visualization tiles in order (lines 682, 692, 703, 712, 726-740, 761,
804). -/
structure DashboardDoc where
  dataQuality : String
  statistics : String
  correlations : String
  patterns : String
  preprocessing : String
  insights : String
  tiles : List Artifact
deriving DecidableEq, Repr

/-- Dashboard assembly as a total template expansion. -/
def assembleDashboard (r : Reply) (vs : List Artifact) : DashboardDoc :=
  { dataQuality := format_content (r.data_quality.getD "No data quality assessment available")
    statistics := format_content (r.statistics.getD "No statistics available")
    correlations := format_content (r.correlations.getD "No correlation analysis available")
    patterns := format_content (r.patterns.getD "No patterns identified")
    preprocessing := format_content (r.preprocessing.getD "No preprocessing recommendations available")
    insights := format_content (r.insights.getD "No insights available")
    tiles := vs }

/-! ### POST /api/analyze (main.py lines 94-198) -/

/-- The JSON body returned by `analyze_data` (lines 188-192); the
visualization path, when produced, is abstracted to a marker. -/
structure AnalyzeOk where
  analysis : String
  insights : String
  visualization : Option String
deriving DecidableEq, Repr

/-- `analyze_data` (lines 94-198).  The inner visualization-code execution
(lines 156-186) records errors without raising; the saved-image path is
abstracted to `some "png"`. -/
def analyze_data (store : List (String × StoredData)) (fid : String)
    (outcome : UpstreamOutcome) (execO : String → ExecRes) :
    Except HTTPError AnalyzeOk :=
  match lookupStore store fid with
  | none => .error ⟨404, "File not found"⟩
  | some _ =>
    match handleCompletion outcome with
    | .error e => .error e
    | .ok r =>
      let viz : Option String :=
        match truthyCode r.visualization_code with
        | none => none
        | some code =>
          match execO code with
          | .err _ => none
          | .ok hasFig =>
            if mentions "plt" code then some "png"
            else if mentions "px" code then
              if hasFig then some "png" else none
            else none
      .ok ⟨r.analysis.getD "No analysis provided",
           r.insights.getD "No insights provided", viz⟩

/-! ### POST /api/auto-analyze (main.py lines 328-836) -/

/-- The JSON body returned by `auto_analyze_data` (lines 820-830): the
dashboard, the five `.get(key, "")` analysis fields, and the
visualizations. -/
structure AutoOk where
  dashboard : DashboardDoc
  data_quality : String
  statistics : String
  correlations : String
  patterns : String
  insights : String
  visualizations : List Artifact
deriving DecidableEq, Repr

/-- `auto_analyze_data` (lines 328-836). -/
def auto_analyze_data (store : List (String × StoredData)) (fid : String)
    (outcome : UpstreamOutcome) (execO : String → ExecRes) :
    Except HTTPError AutoOk :=
  match lookupStore store fid with
  | none => .error ⟨404, "File not found"⟩
  | some d =>
    match handleCompletion outcome with
    | .error e => .error e
    | .ok r =>
      let vs := autoVizPaths d.df execO r
      .ok ⟨assembleDashboard r vs,
           r.data_quality.getD "", r.statistics.getD "",
           r.correlations.getD "", r.patterns.getD "",
           r.insights.getD "", vs⟩

/-! ### POST /api/visualize (main.py lines 200-263) -/

/-- The plotly express figure constructed per chart type (lines 229-252);
a `none` second component means the call omitted `y`. -/
inductive PxChart where
  | bar (x : String) (y : Option String) (color : Option String)
  | line (x : String) (y : Option String) (color : Option String)
  | scatter (x : String) (y : Option String) (color : Option String)
  | histogram (x : String) (color : Option String)
  | box (x : String) (y : Option String) (color : Option String)
deriving DecidableEq, Repr

/-- The successful response of `create_visualization` (line 260); the uuid
image path is abstracted to the chart drawn. -/
structure VizOk where
  chart : PxChart
deriving DecidableEq, Repr

/-- Python truthiness of an optional form field (`if not y_column`). -/
def truthy : Option String → Bool
  | none => false
  | some s => !(s == "")

/-- The body of the try block of `create_visualization` (lines 224-260):
chart-type dispatch, including the `HTTPException(400, ...)` raises that
occur inside the try. -/
def visualizeInner (viz_type x_column : String)
    (y_column color_by : Option String) : Except HTTPError PxChart :=
  if viz_type = "bar" then
    .ok (.bar x_column (if truthy y_column then y_column else none) color_by)
  else if viz_type = "line" then
    if !truthy y_column then .error ⟨400, "Y column required for line chart"⟩
    else .ok (.line x_column y_column color_by)
  else if viz_type = "scatter" then
    if !truthy y_column then .error ⟨400, "Y column required for scatter plot"⟩
    else .ok (.scatter x_column y_column color_by)
  else if viz_type = "histogram" then
    .ok (.histogram x_column color_by)
  else if viz_type = "box" then
    .ok (.box x_column (if truthy y_column then y_column else none) color_by)
  else
    .error ⟨400, "Unsupported visualization type: " ++ viz_type⟩

/-- `create_visualization` (lines 200-263).  The column checks
(lines 215-222) precede the try block; everything raised inside the try —
including the handler's own `HTTPException(400, ...)` — is caught by
`except Exception` (line 262) and re-raised as a 500 whose detail embeds
`str(e)`, which for a starlette `HTTPException` is
`f"\x7bstatus_code\x7d: \x7bdetail\x7d"`. -/
def create_visualization (store : List (String × StoredData))
    (file_id viz_type x_column : String) (y_column color_by : Option String) :
    Except HTTPError VizOk :=
  match lookupStore store file_id with
  | none => .error ⟨404, "File not found"⟩
  | some d =>
    if x_column ∉ dfColumns d.df then
      .error ⟨400, "Column " ++ x_column ++ " not found in data"⟩
    else if truthy y_column && decide (y_column.getD "" ∉ dfColumns d.df) then
      .error ⟨400, "Column " ++ y_column.getD "" ++ " not found in data"⟩
    else if truthy color_by && decide (color_by.getD "" ∉ dfColumns d.df) then
      .error ⟨400, "Column " ++ color_by.getD "" ++ " not found in data"⟩
    else
      match visualizeInner viz_type x_column y_column color_by with
      | .ok ch => .ok ⟨ch⟩
      | .error e =>
        .error ⟨500, "Error creating visualization: "
                      ++ toString e.status ++ ": " ++ e.detail⟩

/-! ### POST /api/generate-report (main.py lines 265-326) -/

/-- One element written into the PDF: a `cell`, a `multi_cell` paragraph,
or an embedded image. -/
inductive PdfItem where
  | cell (txt : String)
  | para (txt : String)
  | image (path : String)
deriving DecidableEq, Repr

/-- Is the element an embedded image? -/
def isImage : PdfItem → Bool
  | .image _ => true
  | _ => false

/-- Removing the leading slash of a visualization path (lines 304-305). -/
def stripSlash (p : String) : String :=
  match p.data with
  | '/' :: rest => ⟨rest⟩
  | _ => p

/-- The analysis paragraphs (lines 291-293): split on newlines, keep the
ones nonempty after strip, each as a `multi_cell`. -/
def reportParagraphs (analysis_text : String) : List PdfItem :=
  (((splitOnChar '\n' analysis_text.data).map (fun l => (⟨l⟩ : String))).filter
      (fun p => pyStrip p ≠ "")).map .para

/-- The PDF elements contributed by one visualization path (lines 301-316):
nonexistent files are skipped, an embedding failure is caught and replaced
by an inline error paragraph.  `fs` is file existence; `embed p = some m`
means `pdf.image` raised with message `m`. -/
def addViz (fs : String → Bool) (embed : String → Option String)
    (i : Nat) (p : String) : List PdfItem :=
  let q := stripSlash p
  if !fs q then []
  else
    match embed q with
    | none => [.cell ("Visualization " ++ toString (i + 1)), .image q]
    | some m => [.cell ("Visualization " ++ toString (i + 1)),
                 .para ("Error adding visualization: " ++ m)]

/-- The loop over visualization paths (line 301). -/
def vizLoop (fs : String → Bool) (embed : String → Option String) :
    Nat → List String → List PdfItem
  | _, [] => []
  | i, p :: rest => addViz fs embed i p ++ vizLoop fs embed (i + 1) rest

/-- The visualizations section (lines 296-316), emitted only when the list
is truthy (nonempty). -/
def vizSection (fs : String → Bool) (embed : String → Option String)
    (paths : List String) : List PdfItem :=
  if paths.isEmpty then []
  else .cell "Visualizations:" :: vizLoop fs embed 0 paths

/-- All elements of the generated PDF (lines 277-316); font changes and
spacing are not content and are omitted. -/
def reportItems (filename analysis_text : String) (fs : String → Bool)
    (embed : String → Option String) (paths : List String) : List PdfItem :=
  .cell ("Data Analysis Report: " ++ filename)
    :: .para "Analysis:"
    :: reportParagraphs analysis_text
    ++ vizSection fs embed paths

/-- The successful response of `generate_report` (line 323); the uuid pdf
path is abstracted to the document content. -/
structure ReportOk where
  items : List PdfItem
deriving DecidableEq, Repr

/-- `generate_report` (lines 265-326). -/
def generate_report (store : List (String × StoredData)) (fid : String)
    (analysis_text : String) (paths : List String) (fs : String → Bool)
    (embed : String → Option String) : Except HTTPError ReportOk :=
  match lookupStore store fid with
  | none => .error ⟨404, "File not found"⟩
  | some d => .ok ⟨reportItems d.filename analysis_text fs embed paths⟩

/-! ### Helper lemmas -/

/-- Appending strings appends their character lists. -/
theorem strDataAppend (a b : String) : (a ++ b).data = a.data ++ b.data := by
  cases a
  cases b
  rfl

/-- Splitting a list that does not contain the separator yields the list
itself as the single piece. -/
theorem splitOnChar_no_sep (sep : Char) (l : List Char) (h : sep ∉ l) :
    splitOnChar sep l = [l] := by
  induction l with
  | nil => rfl
  | cons c rest ih =>
    rw [List.mem_cons, not_or] at h
    have hcs : (c == sep) = false := by
      simp only [beq_eq_false_iff_ne, ne_eq]
      exact fun e => h.1 e.symm
    simp [splitOnChar, ih h.2, hcs]

/-- On a dotless filename, the extracted extension is the whole filename,
lowercased. -/
theorem extOf_dotless (filename : String) (h : ('.' : Char) ∉ filename.data) :
    extOf filename = lowerStr filename := by
  unfold extOf
  rw [splitOnChar_no_sep _ _ h]
  rfl

/-- The visualization pipeline of auto-analyze never returns an empty list:
the end-of-loop default block always contributes the Data Overview panel. -/
theorem autoVizPaths_ne_nil (df : DataFrame) (execO : String → ExecRes)
    (r : Reply) : autoVizPaths df execO r ≠ [] := by
  unfold autoVizPaths
  by_cases hE : (replyArtifacts df execO r).isEmpty = true
  · simp [hE, defaultBlock]
  · rw [Bool.not_eq_true] at hE
    simp only [hE, Bool.false_eq_true, if_false]
    exact fun hnil => by simp [hnil] at hE

/-- `is2xx 200` holds. -/
theorem is2xx_200 : is2xx 200 = true := rfl

/-- A 2xx response with decodable content passes straight through the
completion error handling. -/
theorem handleCompletion_ok (body : String) (r : Reply) :
    handleCompletion (.response 200 body (.ok r)) = .ok r := by
  simp [handleCompletion, is2xx_200]

/-! ### Concrete fixtures used by the closed theorems -/

/-- A dataset with one numeric and one object column. -/
def vizDf : DataFrame := ⟨[("a", Dtype.float64), ("b", Dtype.object)]⟩

/-- A store holding `vizDf` under id `"f1"`. -/
def vizStore : List (String × StoredData) :=
  [("f1", ⟨"data.csv", "temp/uploads/f1.csv", ["a", "b"], vizDf⟩)]

/-- A dataset with a single object column and no numeric columns. -/
def catDf : DataFrame := ⟨[("name", Dtype.object)]⟩

/-- A store holding `catDf` under id `"f1"`. -/
def catStore : List (String × StoredData) :=
  [("f1", ⟨"cats.csv", "temp/uploads/f1.csv", ["name"], catDf⟩)]

/-- A model reply carrying one visualization slot with working
matplotlib code. -/
def pltReply : Reply := { visualizations := some [{ code := some "plt.plot(df)" }] }

/-- An exec oracle on which every code fragment succeeds without creating
a `fig` object. -/
def okNoFig : String → ExecRes := fun _ => .ok false

/-- A dataset with two numeric columns. -/
def twoNumDf : DataFrame := ⟨[("x", Dtype.float64), ("y", Dtype.int64)]⟩

/-- A filesystem oracle on which no file exists. -/
def fsNone : String → Bool := fun _ => false

/-- An embedding oracle on which every embed succeeds. -/
def embedNone : String → Option String := fun _ => none

/-- Artifacts of auto-analyze that do NOT come from executing the model's
own visualization code: every fallback/default/error artifact. -/
def isFallbackArtifact : Artifact → Bool
  | .mpl _ => false
  | .plotly _ => false
  | _ => true

/-! ### Claim C1 -/

/-- C1: the claim says `/api/visualize` returns a 400-class error for a
line/scatter request without a y_column and for an unsupported viz_type.
The code raises `HTTPException(400, ...)` for these INSIDE the try block,
and `except Exception` (main.py line 262) catches that very exception and
re-raises it as a 500 — so the client receives a 500, contradicting both
the claim and the handler's own 400 raises (a code bug).  Only the
x_column check (line 215, outside the try) really produces a 400.  This
theorem evaluates the handler at the failing inputs. -/
theorem visualize_client_errors_downgraded_to_500 :
    create_visualization vizStore "f1" "line" "a" none none =
      .error ⟨500, "Error creating visualization: 400: Y column required for line chart"⟩ ∧
    create_visualization vizStore "f1" "scatter" "a" none none =
      .error ⟨500, "Error creating visualization: 400: Y column required for scatter plot"⟩ ∧
    create_visualization vizStore "f1" "pie" "a" none none =
      .error ⟨500, "Error creating visualization: 400: Unsupported visualization type: pie"⟩ ∧
    create_visualization vizStore "f1" "bar" "zz" none none =
      .error ⟨400, "Column zz not found in data"⟩ :=
  ⟨rfl, rfl, rfl, rfl⟩

/-! ### Claim C2 -/

/-- C2: each of analyze, visualize, generate-report and auto-analyze
returns the 404 "File not found" error for a file_id absent from the
store, independently of every other argument (so before any other work,
and never a 500). -/
theorem unknown_file_id_always_404 (store : List (String × StoredData))
    (fid : String) (h : lookupStore store fid = none)
    (outcome : UpstreamOutcome) (execO : String → ExecRes)
    (viz_type x_column : String) (y_column color_by : Option String)
    (analysis_text : String) (paths : List String) (fs : String → Bool)
    (embed : String → Option String) :
    analyze_data store fid outcome execO = .error ⟨404, "File not found"⟩ ∧
    create_visualization store fid viz_type x_column y_column color_by =
      .error ⟨404, "File not found"⟩ ∧
    generate_report store fid analysis_text paths fs embed =
      .error ⟨404, "File not found"⟩ ∧
    auto_analyze_data store fid outcome execO = .error ⟨404, "File not found"⟩ := by
  refine ⟨?_, ?_, ?_, ?_⟩ <;>
    simp [analyze_data, create_visualization, generate_report,
      auto_analyze_data, h]

/-- Witness for C2 at the empty store. -/
theorem unknown_file_id_always_404_witness :
    analyze_data [] "missing" (.netError "boom") okNoFig =
      .error ⟨404, "File not found"⟩ ∧
    create_visualization [] "missing" "line" "a" none none =
      .error ⟨404, "File not found"⟩ ∧
    generate_report [] "missing" "text" [] fsNone embedNone =
      .error ⟨404, "File not found"⟩ ∧
    auto_analyze_data [] "missing" (.netError "boom") okNoFig =
      .error ⟨404, "File not found"⟩ :=
  unknown_file_id_always_404 [] "missing" rfl (.netError "boom") okNoFig
    "line" "a" none none "text" [] fsNone embedNone

/-! ### Claim C3 -/

/-- C3 counterexample: a stored dataset with zero numeric columns for
which auto-analyze succeeds with a non-empty visualizations list that
contains NO fallback artifact at all (in particular no categorical bar
chart): the model reply supplied working matplotlib code, so the only
artifact is the model-rendered one. -/
theorem auto_analyze_no_fallback_counterexample :
    numericCols catDf = [] ∧
    (auto_analyze_data catStore "f1" (.response 200 "" (.ok pltReply))
        okNoFig).map (fun res => res.visualizations) =
      .ok [Artifact.mpl "plt.plot(df)"] ∧
    ([Artifact.mpl "plt.plot(df)"] : List Artifact).all
      (fun a => !isFallbackArtifact a) = true :=
  ⟨rfl, rfl, rfl⟩

/-- C3 as amended: for a stored dataset with zero numeric columns (and a
successful completion), auto-analyze completes without raising and its
visualizations list is non-empty; when the model reply yields no
visualizations array, the list is exactly the fallback Data Overview
panel, whose categorical subpanel is a bar chart of the first
object/category column when one exists. -/
theorem auto_analyze_zero_numeric_nonempty (store : List (String × StoredData))
    (fid : String) (d : StoredData) (body : String) (r : Reply)
    (execO : String → ExecRes) (h1 : lookupStore store fid = some d)
    (h2 : numericCols d.df = []) :
    (auto_analyze_data store fid (.response 200 body (.ok r)) execO).map
        (fun res => res.visualizations) =
      .ok (autoVizPaths d.df execO r) ∧
    autoVizPaths d.df execO r ≠ [] ∧
    (r.visualizations = none →
      autoVizPaths d.df execO r =
        [Artifact.overview false false (categoricalCols d.df).head?]) := by
  refine ⟨?_, autoVizPaths_ne_nil d.df execO r, ?_⟩
  · simp [auto_analyze_data, h1, handleCompletion_ok, Except.map]
  · intro hv
    have hra : replyArtifacts d.df execO r = [] := by
      simp [replyArtifacts, hv]
    simp [autoVizPaths, hra, defaultBlock, h2]

/-- Witness for C3 at a one-column categorical dataset and an empty
model reply. -/
theorem auto_analyze_zero_numeric_nonempty_witness :
    (auto_analyze_data catStore "f1" (.response 200 "" (.ok ({} : Reply)))
        okNoFig).map (fun res => res.visualizations) =
      .ok (autoVizPaths catDf okNoFig {}) ∧
    autoVizPaths catDf okNoFig {} =
      [Artifact.overview false false (some "name")] :=
  ⟨(auto_analyze_zero_numeric_nonempty catStore "f1" _ "" {} okNoFig rfl rfl).1,
   (auto_analyze_zero_numeric_nonempty catStore "f1" _ "" {} okNoFig rfl rfl).2.2 rfl⟩

/-! ### Claim C4 -/

/-- C4: when the supplied slot code is absent or shorter than 10 characters
after stripping, slot 0 gets the canned distribution-histogram code exactly
when the dataset has at least one numeric column, slot 1 gets the canned
correlation-heatmap code exactly when it has at least two numeric columns,
and when the shape condition fails (or the slot index is 2 or more) the
code is left exactly as supplied. -/
theorem default_substitution_policy (df : DataFrame) (vc : Option String)
    (h : needsDefault vc = true) :
    (∀ c t, numericCols df = c :: t →
      substituteDefault df 0 vc = some (defaultHistCode c)) ∧
    (numericCols df = [] → substituteDefault df 0 vc = vc) ∧
    ((numericCols df).length > 1 →
      substituteDefault df 1 vc = some defaultHeatmapCode) ∧
    (¬(numericCols df).length > 1 → substituteDefault df 1 vc = vc) ∧
    (∀ i, 2 ≤ i → substituteDefault df i vc = vc) := by
  refine ⟨?_, ?_, ?_, ?_, ?_⟩
  · intro c t hc; simp [substituteDefault, h, hc]
  · intro hc; simp [substituteDefault, h, hc]
  · intro hl; simp [substituteDefault, h, hl]
  · intro hl; simp [substituteDefault, h, hl]
  · intro i hi
    have h0 : ¬(i = 0) := by omega
    have h1 : ¬(i = 1) := by omega
    simp [substituteDefault, h, h0, h1]

/-- Witness for C4: a slot with absent code over a two-numeric-column
dataset receives the canned histogram default for slot 0. -/
theorem default_substitution_policy_witness :
    substituteDefault twoNumDf 0 none = some (defaultHistCode "x") :=
  (default_substitution_policy twoNumDf none rfl).1 "x" ["y"] rfl

/-! ### Claim C5 -/

/-- C5 counterexample: with every optional field missing, the patterns
section renders `"No patterns identified"`, which is not of the claimed
form `"No X available"` for any X. -/
theorem patterns_placeholder_counterexample :
    (assembleDashboard ({} : Reply) []).patterns = "No patterns identified" ∧
    ∀ x : String, "No patterns identified" ≠ "No " ++ x ++ " available" := by
  constructor
  · rfl
  · intro x h
    have hd : ("No patterns identified" : String).data =
        ("No " : String).data ++ x.data ++ (" available" : String).data := by
      rw [h, strDataAppend, strDataAppend]
    have hv : ('v' : Char) ∈ ("No patterns identified" : String).data := by
      rw [hd]
      exact List.mem_append.mpr (Or.inr (by decide))
    exact absurd hv (by decide)

/-- C5 as amended: dashboard assembly is a total function, each missing
optional field renders its declared placeholder, and the placeholders for
data_quality, statistics, correlations, preprocessing and insights are of
the form "No X available" — while the patterns placeholder is
"No patterns identified". -/
theorem dashboard_placeholder_rendering (r : Reply) (vs : List Artifact) :
    (r.data_quality = none →
      (assembleDashboard r vs).dataQuality = "No data quality assessment available") ∧
    (r.statistics = none →
      (assembleDashboard r vs).statistics = "No statistics available") ∧
    (r.correlations = none →
      (assembleDashboard r vs).correlations = "No correlation analysis available") ∧
    (r.patterns = none →
      (assembleDashboard r vs).patterns = "No patterns identified") ∧
    (r.preprocessing = none →
      (assembleDashboard r vs).preprocessing = "No preprocessing recommendations available") ∧
    (r.insights = none →
      (assembleDashboard r vs).insights = "No insights available") ∧
    ("No data quality assessment available" =
      "No " ++ "data quality assessment" ++ " available") ∧
    ("No statistics available" = "No " ++ "statistics" ++ " available") ∧
    ("No correlation analysis available" =
      "No " ++ "correlation analysis" ++ " available") ∧
    ("No preprocessing recommendations available" =
      "No " ++ "preprocessing recommendations" ++ " available") ∧
    ("No insights available" = "No " ++ "insights" ++ " available") := by
  refine ⟨?_, ?_, ?_, ?_, ?_, ?_, rfl, rfl, rfl, rfl, rfl⟩ <;>
    (intro h; simp only [assembleDashboard, h, Option.getD]; rfl)

/-- Witness for C5 at the empty reply. -/
theorem dashboard_placeholder_rendering_witness :
    (assembleDashboard ({} : Reply) []).statistics = "No statistics available" :=
  (dashboard_placeholder_rendering {} []).2.1 rfl

/-! ### Claim C6 -/

/-- C6: an upload whose filename extension is not csv/xlsx/xls is rejected
with a 400 error and the whole state — in particular the data store — is
returned unchanged. -/
theorem upload_bad_extension_rejected (st : AppState) (filename fid : String)
    (parsed : Except String DataFrame) (h : extOf filename ∉ allowedExts) :
    upload_file st filename fid parsed =
      (st, .error ⟨400, if filename = "" then "No file provided"
                        else "Only CSV and Excel files are supported"⟩) := by
  by_cases hf : filename = "" <;> simp [upload_file, hf, h]

/-- Witness for C6 at a `.txt` upload. -/
theorem upload_bad_extension_rejected_witness :
    upload_file ⟨[], []⟩ "notes.txt" "id2" (.error "x") =
      (⟨[], []⟩, .error ⟨400, "Only CSV and Excel files are supported"⟩) :=
  upload_bad_extension_rejected ⟨[], []⟩ "notes.txt" "id2" (.error "x") (by decide)

/-! ### Claim C9 -/

/-- C9: an accepted-extension upload whose content fails to parse returns
a 500 error; the data store is unchanged, but the raw file has already
been written into the uploads directory. -/
theorem upload_parse_failure_500_store_unchanged (st : AppState)
    (filename fid msg : String) (h1 : filename ≠ "")
    (h2 : extOf filename ∈ allowedExts) :
    upload_file st filename fid (.error msg) =
      ({ st with uploads := st.uploads ++ [fid ++ "." ++ extOf filename] },
       .error ⟨500, "Error processing file: " ++ msg⟩) := by
  simp [upload_file, h1, h2]

/-- Witness for C9 at a malformed csv. -/
theorem upload_parse_failure_500_store_unchanged_witness :
    upload_file ⟨[], []⟩ "data.csv" "id3" (.error "bad csv") =
      (⟨[], ["id3.csv"]⟩, .error ⟨500, "Error processing file: bad csv"⟩) :=
  upload_parse_failure_500_store_unchanged ⟨[], []⟩ "data.csv" "id3" "bad csv"
    (by decide) (by decide)

/-! ### Claim C10 -/

/-- C10 counterexample: `"CSV"` is a dotless filename different from the
three exact names csv/xlsx/xls, yet the upload is accepted (the check
lowercases the extension), refuting "every other dotless filename is
rejected". -/
theorem dotless_filename_counterexample :
    ('.' : Char) ∉ ("CSV" : String).data ∧
    ("CSV" : String) ∉ allowedExts ∧
    (upload_file ⟨[], []⟩ "CSV" "id1" (.ok catDf)).2 =
      .ok ⟨"id1", "CSV", ["name"]⟩ :=
  ⟨by decide, by decide, rfl⟩

/-- C10 as amended: on a dotless filename the whole filename is the
extension; it is accepted exactly when its ASCII-lowercase form is
csv/xlsx/xls, and rejected with a 400 error otherwise. -/
theorem dotless_filename_extension_rule (st : AppState) (filename fid : String)
    (df : DataFrame) (hnd : ('.' : Char) ∉ filename.data) :
    (lowerStr filename ∈ allowedExts →
      (upload_file st filename fid (.ok df)).2 =
        .ok ⟨fid, filename, dfColumns df⟩) ∧
    (lowerStr filename ∉ allowedExts →
      (upload_file st filename fid (.ok df)).2 =
        .error ⟨400, if filename = "" then "No file provided"
                     else "Only CSV and Excel files are supported"⟩) := by
  constructor
  · intro hmem
    have hf : filename ≠ "" := by
      intro e
      rw [e] at hmem
      exact absurd hmem (by decide)
    simp [upload_file, hf, extOf_dotless filename hnd, hmem]
  · intro hmem
    by_cases hf : filename = ""
    · simp [upload_file, hf]
    · simp [upload_file, hf, extOf_dotless filename hnd, hmem]

/-- Witness for C10: a dotless filename whose lowercase form is an allowed
extension is accepted. -/
theorem dotless_filename_extension_rule_witness :
    (upload_file ⟨[], []⟩ "xlsx" "id9" (.ok twoNumDf)).2 =
      .ok ⟨"id9", "xlsx", ["x", "y"]⟩ :=
  (dotless_filename_extension_rule ⟨[], []⟩ "xlsx" "id9" twoNumDf
    (by decide)).1 (by decide)

/-! ### Claim C7 -/

/-- C7: a non-2xx completion response surfaces from both analyze and
auto-analyze as an error whose status equals the upstream status and whose
detail carries the upstream body; every other failure of the completion
exchange (network error, undecodable content) surfaces as a generic
"Error analyzing data" 500. -/
theorem completion_error_surfacing (store : List (String × StoredData))
    (fid : String) (d : StoredData) (h : lookupStore store fid = some d)
    (st : Nat) (body : String) (c : Except String Reply)
    (hst : is2xx st = false) (st2 : Nat) (body2 : String)
    (h2 : is2xx st2 = true) (m pm : String) (execO : String → ExecRes) :
    analyze_data store fid (.response st body c) execO =
      .error ⟨st, "Error from OpenRouter API: " ++ body⟩ ∧
    auto_analyze_data store fid (.response st body c) execO =
      .error ⟨st, "Error from OpenRouter API: " ++ body⟩ ∧
    analyze_data store fid (.netError m) execO =
      .error ⟨500, "Error analyzing data: " ++ m⟩ ∧
    auto_analyze_data store fid (.netError m) execO =
      .error ⟨500, "Error analyzing data: " ++ m⟩ ∧
    analyze_data store fid (.response st2 body2 (.error pm)) execO =
      .error ⟨500, "Error analyzing data: " ++ pm⟩ ∧
    auto_analyze_data store fid (.response st2 body2 (.error pm)) execO =
      .error ⟨500, "Error analyzing data: " ++ pm⟩ := by
  refine ⟨?_, ?_, ?_, ?_, ?_, ?_⟩ <;>
    simp [analyze_data, auto_analyze_data, handleCompletion, h, hst, h2]

/-- Witness for C7 at a 502 upstream response and a 200 response with
undecodable content. -/
theorem completion_error_surfacing_witness :
    analyze_data vizStore "f1" (.response 502 "Bad Gateway" (.ok {})) okNoFig =
      .error ⟨502, "Error from OpenRouter API: Bad Gateway"⟩ ∧
    auto_analyze_data vizStore "f1" (.response 502 "Bad Gateway" (.ok {})) okNoFig =
      .error ⟨502, "Error from OpenRouter API: Bad Gateway"⟩ ∧
    analyze_data vizStore "f1" (.netError "timeout") okNoFig =
      .error ⟨500, "Error analyzing data: timeout"⟩ ∧
    auto_analyze_data vizStore "f1" (.netError "timeout") okNoFig =
      .error ⟨500, "Error analyzing data: timeout"⟩ ∧
    analyze_data vizStore "f1" (.response 200 "ok" (.error "bad json")) okNoFig =
      .error ⟨500, "Error analyzing data: bad json"⟩ ∧
    auto_analyze_data vizStore "f1" (.response 200 "ok" (.error "bad json")) okNoFig =
      .error ⟨500, "Error analyzing data: bad json"⟩ :=
  completion_error_surfacing vizStore "f1" _ rfl 502 "Bad Gateway" (.ok {})
    rfl 200 "ok" rfl "timeout" "bad json" okNoFig

/-! ### Claim C8 -/

/-- C8: with an empty visualization_paths list, generate-report succeeds
and the PDF consists of the title and analysis text only (no image
elements); for any list it still succeeds; a path whose file does not
exist contributes nothing (silent skip); a per-image embedding failure
contributes the caption plus an inline error note instead of the image;
and each path is processed independently of the rest of the list. -/
theorem report_degrades_gracefully (store : List (String × StoredData))
    (fid : String) (d : StoredData) (t : String) (paths : List String)
    (fs : String → Bool) (embed : String → Option String)
    (h : lookupStore store fid = some d) :
    (generate_report store fid t [] fs embed =
      .ok ⟨PdfItem.cell ("Data Analysis Report: " ++ d.filename)
            :: PdfItem.para "Analysis:" :: reportParagraphs t⟩) ∧
    (∀ it ∈ reportItems d.filename t fs embed [], isImage it = false) ∧
    (generate_report store fid t paths fs embed =
      .ok ⟨reportItems d.filename t fs embed paths⟩) ∧
    (∀ i p, fs (stripSlash p) = false → addViz fs embed i p = []) ∧
    (∀ i p m, fs (stripSlash p) = true → embed (stripSlash p) = some m →
      addViz fs embed i p =
        [.cell ("Visualization " ++ toString (i + 1)),
         .para ("Error adding visualization: " ++ m)]) ∧
    (∀ i p rest, vizLoop fs embed i (p :: rest) =
      addViz fs embed i p ++ vizLoop fs embed (i + 1) rest) := by
  refine ⟨?_, ?_, ?_, ?_, ?_, ?_⟩
  · simp [generate_report, h, reportItems, vizSection]
  · intro it hit
    simp only [reportItems, vizSection, List.isEmpty_nil, if_true,
      List.append_nil, reportParagraphs, List.mem_cons, List.mem_map,
      List.mem_filter] at hit
    rcases hit with h1 | h1 | ⟨p, _, h1⟩ <;> subst h1 <;> rfl
  · simp [generate_report, h]
  · intro i p hf; simp [addViz, hf]
  · intro i p m hf he; simp [addViz, hf, he]
  · intro i p rest; rfl

/-- Witness for C8: report over the empty path list, and a missing image
path being skipped. -/
theorem report_degrades_gracefully_witness :
    generate_report vizStore "f1" "hello" [] fsNone embedNone =
      .ok ⟨PdfItem.cell ("Data Analysis Report: " ++ "data.csv")
            :: PdfItem.para "Analysis:" :: reportParagraphs "hello"⟩ ∧
    addViz fsNone embedNone 0 "/temp/outputs/x.png" = [] :=
  ⟨(report_degrades_gracefully vizStore "f1" _ "hello" [] fsNone embedNone rfl).1,
   (report_degrades_gracefully vizStore "f1" _ "hello" [] fsNone embedNone
      rfl).2.2.2.1 0 "/temp/outputs/x.png" rfl⟩

end DAW
